import Mathlib

/-
Shallow embedding of src/collision/narrow_phase.rs (the bevy_xpbd narrow phase).

Layer 1 (computable, scalar impulses as ℚ, 2-D contact points): the Collisions
store, contact matching and warm starting (compute_contacts), constraint gating
and wake-up side effects (generate_constraints), pair handling (handle_pair) and
the collision state lifecycle (reset_collision_states, remove_ended_collisions).
The geometry backend (AnyCollider::contact_manifolds) is an outside pure
function per the spec; its output is passed in as the `manifolds` argument, and
ContactConstraint::generate (dynamics::solver::contact) is an outside function
passed in as the `gen` argument, with only its `points` list observed here.

Layer 2 (real-valued, relational): the speculative-margin computation of
handle_pair (lines 330-385 of the source), which needs Euclidean vector
lengths; lengths are characterized relationally by IsLength so that every
definition stays free of square-root data. Scalar::MAX (the "unbounded" margin
sentinel compared with `< Scalar::MAX`) is modelled by Margin.unbounded; the
crate is modelled in its 2-D flavour.
-/

namespace NarrowPhase

/-! Layer 1: entities, contact data and the Collisions store. -/

abbrev Entity := Nat

inductive RigidBody where
  | Static
  | Kinematic
  | Dynamic
deriving DecidableEq

def RigidBody.is_static : RigidBody → Bool
  | .Static => true
  | _ => false

def RigidBody.is_dynamic : RigidBody → Bool
  | .Dynamic => true
  | _ => false

structure ContactData where
  point1x : ℚ
  point1y : ℚ
  normal_impulse : ℚ
  tangent_impulse : ℚ
deriving DecidableEq

structure ContactManifold where
  contacts : List ContactData
deriving DecidableEq

structure Contacts where
  entity1 : Entity
  entity2 : Entity
  body_entity1 : Option Entity
  body_entity2 : Option Entity
  during_current_frame : Bool
  during_previous_frame : Bool
  manifolds : List ContactManifold
  is_sensor : Bool
  total_normal_impulse : ℚ
  total_tangent_impulse : ℚ
deriving DecidableEq

abbrev Collisions := List ((Entity × Entity) × Contacts)

def get_entry (s : Collisions) (k : Entity × Entity) : Option Contacts :=
  (s.find? (fun kv => decide (kv.1 = k))).map (fun kv => kv.2)

def previous_pair (s : Collisions) (entity1 entity2 : Entity) : Option Contacts :=
  (get_entry s (entity1, entity2)).orElse (fun _ => get_entry s (entity2, entity1))

/-! Contact matching and warm starting. -/

def dist_sq (a b : ContactData) : ℚ :=
  (a.point1x - b.point1x) ^ 2 + (a.point1y - b.point1y) ^ 2

/-- Modelled from the spec: `ContactManifold::match_contacts` is not part of the
excerpt. Per the spec, each new point is matched against the previous points
using a distance threshold, and a matched point carries forward the previous
normal and tangent impulses; an unmatched point is left unchanged. -/
def match_point (previous : List ContactData) (threshold : ℚ) (c : ContactData) : ContactData :=
  match previous.find? (fun p => decide (dist_sq c p < threshold ^ 2)) with
  | some p => { c with normal_impulse := p.normal_impulse, tangent_impulse := p.tangent_impulse }
  | none => c

def match_contacts (m : ContactManifold) (previous : List ContactData) (threshold : ℚ) :
    ContactManifold :=
  ⟨m.contacts.map (match_point previous threshold)⟩

def manifold_impulses (m : ContactManifold) : ℚ × ℚ :=
  m.contacts.foldl (fun a c => (a.1 + c.normal_impulse, a.2 + c.tangent_impulse)) (0, 0)

def process_manifold (prev_manifolds : List ContactManifold) (threshold : ℚ)
    (m : ContactManifold) : ContactManifold × ℚ × ℚ :=
  prev_manifolds.foldl
    (fun acc pm =>
      (match_contacts acc.1 pm.contacts threshold,
       acc.2.1 + (manifold_impulses (match_contacts acc.1 pm.contacts threshold)).1,
       acc.2.2 + (manifold_impulses (match_contacts acc.1 pm.contacts threshold)).2))
    (m, 0, 0)

def warm_start_pass (previous : Option Contacts) (threshold : ℚ)
    (manifolds : List ContactManifold) (match_flag : Bool) :
    List ContactManifold × ℚ × ℚ :=
  if manifolds.length ≤ 4 ∧ match_flag = true then
    match previous with
    | some prev =>
      manifolds.foldl
        (fun acc m =>
          (acc.1 ++ [(process_manifold prev.manifolds threshold m).1],
           acc.2.1 + (process_manifold prev.manifolds threshold m).2.1,
           acc.2.2 + (process_manifold prev.manifolds threshold m).2.2))
        ([], 0, 0)
    | none => (manifolds, 0, 0)
  else (manifolds, 0, 0)

/-! The contact computer (NarrowPhase::compute_contacts, lines 435-513). -/

structure ColliderInfo where
  parent : Option Entity
  is_sensor : Bool
  is_rb : Bool
deriving DecidableEq

def compute_contacts (s : Collisions) (length_unit : ℚ)
    (entity1 : Entity) (collider1 : ColliderInfo)
    (entity2 : Entity) (collider2 : ColliderInfo)
    (manifolds : List ContactManifold) (match_flag : Bool) : Option Contacts :=
  if (warm_start_pass (previous_pair s entity1 entity2) (1/10 * length_unit) manifolds
      match_flag).1.isEmpty then
    none
  else
    some {
      entity1 := entity1
      entity2 := entity2
      body_entity1 := collider1.parent
      body_entity2 := collider2.parent
      during_current_frame := true
      during_previous_frame :=
        (previous_pair s entity1 entity2).elim false Contacts.during_previous_frame
      manifolds :=
        (warm_start_pass (previous_pair s entity1 entity2) (1/10 * length_unit) manifolds
          match_flag).1
      is_sensor := collider1.is_sensor || collider2.is_sensor
        || !collider1.is_rb || !collider2.is_rb
      total_normal_impulse :=
        (warm_start_pass (previous_pair s entity1 entity2) (1/10 * length_unit) manifolds
          match_flag).2.1
      total_tangent_impulse :=
        (warm_start_pass (previous_pair s entity1 entity2) (1/10 * length_unit) manifolds
          match_flag).2.2 }

/-! The constraint generator (NarrowPhase::generate_constraints, lines 528-602). -/

structure BodyInfo where
  entity : Entity
  rb : RigidBody
  is_sleeping : Bool
  is_sensor : Bool
deriving DecidableEq

structure ContactConstraint where
  manifold_index : Nat
  points : List Nat
deriving DecidableEq

def generate_constraints (contacts : Contacts) (body1 body2 : BodyInfo)
    (collider1 collider2 : ColliderInfo)
    (gen : Nat → ContactManifold → ContactConstraint) :
    List ContactConstraint × List Entity :=
  if ((body1.rb.is_static || body1.is_sleeping) && (body2.rb.is_static || body2.is_sleeping))
      || (collider1.is_sensor || body1.is_sensor)
      || (collider2.is_sensor || body2.is_sensor) then
    ([], [])
  else
    ((contacts.manifolds.enum.map (fun p => gen p.1 p.2)).filter (fun cc => !cc.points.isEmpty),
     if body1.is_sleeping then [body1.entity]
     else if body2.is_sleeping then [body2.entity]
     else [])

/-! The pair processor (NarrowPhase::handle_pair, lines 310-421), with the
geometry backend's manifold output passed in as `manifolds`. -/

structure World where
  colliders : Entity → Option ColliderInfo
  bodies : Entity → Option BodyInfo

def body_bundle (w : World) (c : ColliderInfo) : Option BodyInfo :=
  c.parent.bind w.bodies

def handle_pair (w : World) (s : Collisions) (length_unit : ℚ)
    (entity1 entity2 : Entity) (manifolds : List ContactManifold) (warm_start : Bool)
    (gen : Nat → ContactManifold → ContactConstraint) :
    Option Contacts × List ContactConstraint × List Entity :=
  match w.colliders entity1, w.colliders entity2 with
  | some collider1, some collider2 =>
    match compute_contacts s length_unit entity1 collider1 entity2 collider2 manifolds
        warm_start with
    | none => (none, [], [])
    | some contacts =>
      match body_bundle w collider1, body_bundle w collider2 with
      | some body1, some body2 =>
        if !body1.rb.is_dynamic && !body2.rb.is_dynamic then
          (some contacts, [], [])
        else
          (some contacts,
           (generate_constraints contacts body1 body2 collider1 collider2 gen).1,
           (generate_constraints contacts body1 body2 collider1 collider2 gen).2)
      | _, _ => (some contacts, [], [])
  | _, _ => (none, [], [])

/-- Modelled from the spec: `Collisions::insert_collision_pair` is not part of
the excerpt. Per the spec the store keeps one entry per unordered pair, so
insertion replaces the entry under whichever key ordering is present, else adds
the pair under (entity1, entity2). -/
def insert_collision_pair (s : Collisions) (c : Contacts) : Collisions :=
  if (s.find? (fun kv =>
      decide (kv.1 = (c.entity1, c.entity2) ∨ kv.1 = (c.entity2, c.entity1)))).isSome then
    s.map (fun kv =>
      if kv.1 = (c.entity1, c.entity2) ∨ kv.1 = (c.entity2, c.entity1) then (kv.1, c) else kv)
  else s ++ [((c.entity1, c.entity2), c)]

def update_step (w : World) (s : Collisions) (length_unit : ℚ)
    (entity1 entity2 : Entity) (manifolds : List ContactManifold) (warm_start : Bool)
    (gen : Nat → ContactManifold → ContactConstraint) : Collisions :=
  match (handle_pair w s length_unit entity1 entity2 manifolds warm_start gen).1 with
  | some c => insert_collision_pair s c
  | none => s

/-! The collision state tracker (reset_collision_states, lines 645-672, and
remove_ended_collisions, lines 638-640). The query for an entity yields
(Option RigidBody, Has Sleeping), or none when the entity cannot be resolved. -/

def reset_contact_state (q : Entity → Option (Option RigidBody × Bool)) (c : Contacts) :
    Contacts :=
  match q c.entity1, q c.entity2 with
  | some (rb1, sleeping1), some (rb2, sleeping2) =>
    if (!((rb1.map RigidBody.is_static).getD false) && !sleeping1)
        || (!((rb2.map RigidBody.is_static).getD false) && !sleeping2) then
      { c with total_normal_impulse := 0, total_tangent_impulse := 0,
               during_previous_frame := true, during_current_frame := false }
    else
      { c with total_normal_impulse := 0, total_tangent_impulse := 0,
               during_previous_frame := true, during_current_frame := true }
  | _, _ =>
    { c with total_normal_impulse := 0, total_tangent_impulse := 0,
             during_current_frame := false }

def reset_collision_states (q : Entity → Option (Option RigidBody × Bool)) (s : Collisions) :
    Collisions :=
  s.map (fun kv => (kv.1, reset_contact_state q kv.2))

def remove_ended_collisions (s : Collisions) : Collisions :=
  s.filter (fun kv => kv.2.during_current_frame)

/-! Layer 2: the speculative-margin calculation of handle_pair (lines 330-385),
relational over ℝ. -/

abbrev Vec2 := ℝ × ℝ

def vsub (a b : Vec2) : Vec2 := (a.1 - b.1, a.2 - b.2)

def norm_sq (v : Vec2) : ℝ := v.1 ^ 2 + v.2 ^ 2

def IsLength (v : Vec2) (l : ℝ) : Prop := 0 ≤ l ∧ l ^ 2 = norm_sq v

/-- A speculative-margin scalar: a finite value, or the Scalar::MAX sentinel
(`unbounded`), which the source tests for with `speculative_margin < Scalar::MAX`. -/
inductive Margin where
  | fin (x : ℝ)
  | unbounded

def scaled_margin (length_unit : ℝ) : Margin → Margin
  | .fin x => .fin (length_unit * x)
  | .unbounded => .unbounded

structure NarrowPhaseConfig where
  default_speculative_margin : Margin
  contact_tolerance : ℝ

/-- Modelled from the spec: the velocity clamp (`clamp_length_max`, a math
dependency) keeps a vector whose magnitude is at most the bound, and otherwise
rescales it to that magnitude. -/
def ClampLengthMax (v : Vec2) (m : ℝ) (w : Vec2) : Prop :=
  ∃ l, IsLength v l ∧ ((l ≤ m ∧ w = v) ∨ (¬ l ≤ m ∧ w = (m / l * v.1, m / l * v.2)))

def ClampedVelocity (v : Vec2) (m : Margin) (inv_dt : ℝ) (w : Vec2) : Prop :=
  match m with
  | .unbounded => w = v
  | .fin x => ClampLengthMax v (x * inv_dt) w

/-- One side of a candidate pair: the resolved body bundle (linear velocity and
the body's optional SpeculativeMargin override), if any, and the collider's
optional SpeculativeMargin override. -/
structure SideData where
  bundle : Option (Vec2 × Option Margin)
  collider_margin : Option Margin

def side_lin_vel (s : SideData) : Vec2 := (s.bundle.map Prod.fst).getD (0, 0)

def side_body_margin (s : SideData) : Option Margin := (s.bundle.map Prod.snd).getD none

def side_speculative_margin (s : SideData) : Option Margin :=
  s.collider_margin.elim (side_body_margin s) some

/-- The `max_contact_distance` computation of handle_pair (lines 360-385):
clamp each velocity by its effective margin over dt, take dt times the length
of the clamped relative velocity, then max with the contact tolerance.
`default_margin` and `tolerance` are the length-unit-scaled cached values. -/
def MaxContactDistance (default_margin : Margin) (tolerance dt : ℝ)
    (s1 s2 : SideData) (d : ℝ) : Prop :=
  ∃ w1 w2 rel,
    ClampedVelocity (side_lin_vel s1) ((side_speculative_margin s1).getD default_margin)
      dt⁻¹ w1 ∧
    ClampedVelocity (side_lin_vel s2) ((side_speculative_margin s2).getD default_margin)
      dt⁻¹ w2 ∧
    IsLength (vsub w1 w2) rel ∧
    d = max (dt * rel) tolerance

def HandlePairMaxDistance (length_unit : ℝ) (config : NarrowPhaseConfig) (dt : ℝ)
    (s1 s2 : SideData) (d : ℝ) : Prop :=
  MaxContactDistance (scaled_margin length_unit config.default_speculative_margin)
    (length_unit * config.contact_tolerance) dt s1 s2 d

/-- Spec-side margin resolution, following the spec's words: effective margin
for each side is the collider override, else the body override, else the scaled
default. -/
def spec_effective_margin (s : SideData) (scaled_default : Margin) : Margin :=
  match s.collider_margin with
  | some m => m
  | none =>
    match side_body_margin s with
    | some m => m
    | none => scaled_default

/-- Spec-side clamp, following the spec's words: if a side's margin is finite,
clamp that side's velocity magnitude to margin / dt. -/
def SpecClampedVelocity (v : Vec2) (m : Margin) (dt : ℝ) (w : Vec2) : Prop :=
  match m with
  | .unbounded => w = v
  | .fin x => ClampLengthMax v (x / dt) w

/-- Spec-side maximum contact distance, following the spec's words:
max(dt * |clamped_vel1 - clamped_vel2|, length-unit-scaled contact tolerance). -/
def SpecMaxContactDistance (length_unit : ℝ) (config : NarrowPhaseConfig) (dt : ℝ)
    (s1 s2 : SideData) (d : ℝ) : Prop :=
  ∃ w1 w2 rel,
    SpecClampedVelocity (side_lin_vel s1)
      (spec_effective_margin s1 (scaled_margin length_unit config.default_speculative_margin))
      dt w1 ∧
    SpecClampedVelocity (side_lin_vel s2)
      (spec_effective_margin s2 (scaled_margin length_unit config.default_speculative_margin))
      dt w2 ∧
    IsLength (vsub w1 w2) rel ∧
    d = max (dt * rel) (length_unit * config.contact_tolerance)

/-! Concrete data used by witnesses and counterexamples. -/

def pt_zero : ContactData := ⟨0, 0, 0, 0⟩

def man_zero : ContactManifold := ⟨[pt_zero]⟩

def pt_prev : ContactData := ⟨0, 0, 5, 0⟩

def man_prev : ContactManifold := ⟨[pt_prev]⟩

def contacts_prev_single : Contacts := ⟨1, 2, none, none, true, true, [man_prev], false, 0, 0⟩

def contacts_prev_double : Contacts :=
  ⟨1, 2, none, none, true, true, [man_prev, man_prev], false, 0, 0⟩

def store_single : Collisions := [((1, 2), contacts_prev_single)]

def store_double : Collisions := [((1, 2), contacts_prev_double)]

def collider_plain : ColliderInfo := ⟨none, false, true⟩

def collider_parented1 : ColliderInfo := ⟨some 10, false, true⟩

def collider_parented2 : ColliderInfo := ⟨some 20, false, true⟩

def body_dynamic1 : BodyInfo := ⟨10, .Dynamic, false, false⟩

def body_dynamic2 : BodyInfo := ⟨20, .Dynamic, false, false⟩

def body_sleeping : BodyInfo := ⟨10, .Dynamic, true, false⟩

def world_ex : World :=
  ⟨fun e => if e = 1 then some collider_parented1
    else if e = 2 then some collider_parented2 else none,
   fun e => if e = 10 then some body_dynamic1
    else if e = 20 then some body_dynamic2 else none⟩

def gen_ex : Nat → ContactManifold → ContactConstraint := fun i _ => ⟨i, [0]⟩

def contacts_c2_expected : Contacts := ⟨1, 2, none, none, true, true, [man_prev], false, 5, 0⟩

def contacts_c7_expected : Contacts :=
  ⟨1, 2, some 10, some 20, true, false, [man_zero], false, 0, 0⟩

def q_active : Entity → Option (Option RigidBody × Bool) :=
  fun e => if e = 1 then some (some .Dynamic, false)
    else if e = 2 then some (some .Static, false) else none

def q_norb_sleeping : Entity → Option (Option RigidBody × Bool) :=
  fun e => if e = 1 then some (none, true)
    else if e = 2 then some (some .Static, false) else none

def q_norb_awake : Entity → Option (Option RigidBody × Bool) :=
  fun e => if e = 1 then some (none, false)
    else if e = 2 then some (some .Static, false) else none

def contacts_pair12 : Contacts := ⟨1, 2, none, none, true, true, [man_prev], false, 3, 4⟩

def contacts_current : Contacts := ⟨1, 2, none, none, true, true, [man_prev], false, 0, 0⟩

def contacts_ended : Contacts := ⟨3, 4, none, none, false, true, [man_prev], false, 0, 0⟩

def store_mixed : Collisions := [((1, 2), contacts_current), ((3, 4), contacts_ended)]

/-! Helper lemmas. -/

theorem previous_pair_first {s : Collisions} {entity1 entity2 : Entity} {p : Contacts}
    (h : get_entry s (entity1, entity2) = some p) :
    previous_pair s entity1 entity2 = some p := by
  simp [previous_pair, h, Option.orElse]

theorem previous_pair_second {s : Collisions} {entity1 entity2 : Entity}
    (h : get_entry s (entity1, entity2) = none) :
    previous_pair s entity1 entity2 = get_entry s (entity2, entity1) := by
  simp [previous_pair, h, Option.orElse]

theorem warm_foldl_eq (pms : List ContactManifold) (θ : ℚ) (mans : List ContactManifold)
    (acc : List ContactManifold × ℚ × ℚ) :
    mans.foldl
      (fun acc m =>
        (acc.1 ++ [(process_manifold pms θ m).1],
         acc.2.1 + (process_manifold pms θ m).2.1,
         acc.2.2 + (process_manifold pms θ m).2.2)) acc
    = (acc.1 ++ mans.map (fun m => (process_manifold pms θ m).1),
       acc.2.1 + (mans.map (fun m => (process_manifold pms θ m).2.1)).sum,
       acc.2.2 + (mans.map (fun m => (process_manifold pms θ m).2.2)).sum) := by
  induction mans generalizing acc with
  | nil => simp
  | cons m ms ih =>
    simp only [List.foldl_cons, ih, List.map_cons, List.sum_cons, List.append_assoc,
      List.singleton_append, add_assoc]

theorem process_manifold_single (pm : ContactManifold) (θ : ℚ) (m : ContactManifold) :
    process_manifold [pm] θ m =
      (match_contacts m pm.contacts θ,
       (manifold_impulses (match_contacts m pm.contacts θ)).1,
       (manifold_impulses (match_contacts m pm.contacts θ)).2) := by
  simp [process_manifold]

theorem warm_start_pass_skip (previous : Option Contacts) (θ : ℚ)
    (mans : List ContactManifold) (b : Bool) (h : ¬ (mans.length ≤ 4 ∧ b = true)) :
    warm_start_pass previous θ mans b = (mans, 0, 0) := by
  simp [warm_start_pass, h]

theorem warm_start_pass_none (θ : ℚ) (mans : List ContactManifold) (b : Bool) :
    warm_start_pass none θ mans b = (mans, 0, 0) := by
  unfold warm_start_pass
  split <;> rfl

theorem warm_start_pass_nil (previous : Option Contacts) (θ : ℚ) (b : Bool) :
    warm_start_pass previous θ [] b = ([], 0, 0) := by
  unfold warm_start_pass
  split
  · cases previous <;> rfl
  · rfl

theorem warm_start_pass_matched {previous : Option Contacts} {prev : Contacts} (θ : ℚ)
    (mans : List ContactManifold) {b : Bool} (hlen : mans.length ≤ 4) (hb : b = true)
    (hprev : previous = some prev) :
    warm_start_pass previous θ mans b =
      (mans.map (fun m => (process_manifold prev.manifolds θ m).1),
       (mans.map (fun m => (process_manifold prev.manifolds θ m).2.1)).sum,
       (mans.map (fun m => (process_manifold prev.manifolds θ m).2.2)).sum) := by
  subst hprev
  simp [warm_start_pass, hlen, hb, warm_foldl_eq]

theorem compute_contacts_some {s : Collisions} {length_unit : ℚ}
    {entity1 : Entity} {collider1 : ColliderInfo} {entity2 : Entity} {collider2 : ColliderInfo}
    {manifolds : List ContactManifold} {match_flag : Bool} {c : Contacts}
    (hres : compute_contacts s length_unit entity1 collider1 entity2 collider2 manifolds
      match_flag = some c) :
    c = {
      entity1 := entity1
      entity2 := entity2
      body_entity1 := collider1.parent
      body_entity2 := collider2.parent
      during_current_frame := true
      during_previous_frame :=
        (previous_pair s entity1 entity2).elim false Contacts.during_previous_frame
      manifolds :=
        (warm_start_pass (previous_pair s entity1 entity2) (1/10 * length_unit) manifolds
          match_flag).1
      is_sensor := collider1.is_sensor || collider2.is_sensor
        || !collider1.is_rb || !collider2.is_rb
      total_normal_impulse :=
        (warm_start_pass (previous_pair s entity1 entity2) (1/10 * length_unit) manifolds
          match_flag).2.1
      total_tangent_impulse :=
        (warm_start_pass (previous_pair s entity1 entity2) (1/10 * length_unit) manifolds
          match_flag).2.2 } := by
  unfold compute_contacts at hres
  split at hres
  · exact absurd hres (by simp)
  · exact (Option.some.injEq _ _).mp hres.symm

/-! Claim C2. -/

/-- C2 (amended): when compute_contacts produces a Contacts record, the
previous entry is looked up under both key orderings; with at most 4 manifolds
and warm starting enabled and a previous entry present, the new manifolds are
matched against the previous manifolds with threshold 0.1 * length_unit,
matched points carry forward the previous impulses, unmatched points keep their
(zero) fresh impulses, and — when the previous entry has a single manifold —
every produced point's impulses are summed exactly once into the totals; with
warm starting disabled or more than 4 manifolds, or with no previous entry, the
totals are zero. -/
theorem compute_contacts_warm_start_amended
    (s : Collisions) (u : ℚ) (e1 : Entity) (c1 : ColliderInfo) (e2 : Entity) (c2 : ColliderInfo)
    (mans : List ContactManifold) (ws : Bool) (c : Contacts)
    (hres : compute_contacts s u e1 c1 e2 c2 mans ws = some c) :
    (get_entry s (e1, e2) = none → previous_pair s e1 e2 = get_entry s (e2, e1)) ∧
    (∀ p, get_entry s (e1, e2) = some p → previous_pair s e1 e2 = some p) ∧
    (¬ (mans.length ≤ 4 ∧ ws = true) →
      c.total_normal_impulse = 0 ∧ c.total_tangent_impulse = 0 ∧ c.manifolds = mans) ∧
    (previous_pair s e1 e2 = none →
      c.total_normal_impulse = 0 ∧ c.total_tangent_impulse = 0 ∧ c.manifolds = mans) ∧
    (∀ prev pm, mans.length ≤ 4 → ws = true → previous_pair s e1 e2 = some prev →
      prev.manifolds = [pm] →
      c.manifolds = mans.map (fun m => match_contacts m pm.contacts (1/10 * u)) ∧
      c.total_normal_impulse = (c.manifolds.map (fun m => (manifold_impulses m).1)).sum ∧
      c.total_tangent_impulse = (c.manifolds.map (fun m => (manifold_impulses m).2)).sum) ∧
    (∀ prev_pts θ pt p,
      prev_pts.find? (fun p2 => decide (dist_sq pt p2 < θ ^ 2)) = some p →
      (match_point prev_pts θ pt).normal_impulse = p.normal_impulse ∧
      (match_point prev_pts θ pt).tangent_impulse = p.tangent_impulse) ∧
    (∀ prev_pts θ pt, (∀ p2 ∈ prev_pts, ¬ dist_sq pt p2 < θ ^ 2) →
      match_point prev_pts θ pt = pt) := by
  have hc := compute_contacts_some hres
  refine ⟨fun h => previous_pair_second h, fun p h => previous_pair_first h, ?_, ?_, ?_, ?_, ?_⟩
  · intro h
    rw [hc]
    simp [warm_start_pass_skip _ _ _ _ h]
  · intro h
    rw [hc]
    simp [h, warm_start_pass_none]
  · intro prev pm hlen hws hprev hpm
    have hw := warm_start_pass_matched (1/10 * u) mans hlen hws hprev
    have hman : c.manifolds
        = (warm_start_pass (previous_pair s e1 e2) (1/10 * u) mans ws).1 := by rw [hc]
    have hni : c.total_normal_impulse
        = (warm_start_pass (previous_pair s e1 e2) (1/10 * u) mans ws).2.1 := by rw [hc]
    have hti : c.total_tangent_impulse
        = (warm_start_pass (previous_pair s e1 e2) (1/10 * u) mans ws).2.2 := by rw [hc]
    have hA : c.manifolds = mans.map (fun m => match_contacts m pm.contacts (1/10 * u)) := by
      rw [hman, hw, hpm]
      rfl
    refine ⟨hA, ?_, ?_⟩
    · rw [hni, hw, hpm, hA, List.map_map]
      simp only [process_manifold_single, Function.comp_def]
    · rw [hti, hw, hpm, hA, List.map_map]
      simp only [process_manifold_single, Function.comp_def]
  · intro prev_pts θ pt p h
    simp [match_point, h]
  · intro prev_pts θ pt h
    have hnone : prev_pts.find? (fun p2 => decide (dist_sq pt p2 < θ ^ 2)) = none := by
      apply List.find?_eq_none.mpr
      intro p2 hmem
      simp [h p2 hmem]
    simp [match_point, hnone]

/-- C2 counterexample: with a previous entry holding two manifolds, the matched
point's previous normal impulse (5) is summed once per previous manifold, so
the recorded total is 10 while the sum of the produced points' impulses — what
"summed exactly once" would give — is 5. -/
theorem compute_contacts_double_count_counterexample :
    (compute_contacts store_double 1 1 collider_plain 2 collider_plain [man_zero] true).map
      Contacts.total_normal_impulse = some 10 ∧
    (compute_contacts store_double 1 1 collider_plain 2 collider_plain [man_zero] true).map
      (fun c => (c.manifolds.map (fun m => (manifold_impulses m).1)).sum) = some 5 ∧
    (10 : ℚ) ≠ 5 := by
  refine ⟨?_, ?_, by norm_num⟩ <;>
    norm_num [compute_contacts, warm_start_pass, previous_pair, get_entry, store_double,
      contacts_prev_double, man_prev, man_zero, pt_prev, pt_zero, process_manifold,
      match_contacts, match_point, manifold_impulses, dist_sq, List.find?, collider_plain]

/-- C2 witness: the amended theorem applied to a concrete store whose previous
entry has a single manifold. -/
theorem compute_contacts_warm_start_witness :
    compute_contacts store_single 1 1 collider_plain 2 collider_plain [man_zero] true
      = some contacts_c2_expected ∧
    ([man_zero] : List ContactManifold).length ≤ 4 ∧
    previous_pair store_single 1 2 = some contacts_prev_single ∧
    contacts_prev_single.manifolds = [man_prev] ∧
    contacts_c2_expected.total_normal_impulse
      = (contacts_c2_expected.manifolds.map (fun m => (manifold_impulses m).1)).sum := by
  have hres : compute_contacts store_single 1 1 collider_plain 2 collider_plain [man_zero] true
      = some contacts_c2_expected := by
    norm_num [compute_contacts, warm_start_pass, previous_pair, get_entry, store_single,
      contacts_prev_single, man_prev, man_zero, pt_prev, pt_zero, process_manifold,
      match_contacts, match_point, manifold_impulses, dist_sq, List.find?, collider_plain,
      contacts_c2_expected]
  have hprev : previous_pair store_single 1 2 = some contacts_prev_single := by
    norm_num [previous_pair, get_entry, store_single]
  refine ⟨hres, by norm_num, hprev, rfl, ?_⟩
  exact ((compute_contacts_warm_start_amended store_single 1 1 collider_plain 2 collider_plain
    [man_zero] true contacts_c2_expected hres).2.2.2.2.1 contacts_prev_single man_prev
    (by norm_num) rfl hprev rfl).2.1

/-! Claims C4 and C10: the pre-pass reset. -/

theorem reset_contact_state_entity1 (q : Entity → Option (Option RigidBody × Bool))
    (c : Contacts) : (reset_contact_state q c).entity1 = c.entity1 := by
  unfold reset_contact_state
  split
  · split <;> rfl
  · rfl

theorem reset_contact_state_entity2 (q : Entity → Option (Option RigidBody × Bool))
    (c : Contacts) : (reset_contact_state q c).entity2 = c.entity2 := by
  unfold reset_contact_state
  split
  · split <;> rfl
  · rfl

theorem reset_inactive_step (q : Entity → Option (Option RigidBody × Bool)) (c : Contacts)
    (rb1 : Option RigidBody) (sl1 : Bool) (rb2 : Option RigidBody) (sl2 : Bool)
    (hq1 : q c.entity1 = some (rb1, sl1)) (hq2 : q c.entity2 = some (rb2, sl2))
    (hact : ((!((rb1.map RigidBody.is_static).getD false) && !sl1)
        || (!((rb2.map RigidBody.is_static).getD false) && !sl2)) = false) :
    (reset_contact_state q c).during_previous_frame = true ∧
    (reset_contact_state q c).during_current_frame = true := by
  unfold reset_contact_state
  rw [hq1, hq2]
  simp [hact]

theorem reset_inactive_persistent (q : Entity → Option (Option RigidBody × Bool)) (c : Contacts)
    (rb1 : Option RigidBody) (sl1 : Bool) (rb2 : Option RigidBody) (sl2 : Bool)
    (hq1 : q c.entity1 = some (rb1, sl1)) (hq2 : q c.entity2 = some (rb2, sl2))
    (hact : ((!((rb1.map RigidBody.is_static).getD false) && !sl1)
        || (!((rb2.map RigidBody.is_static).getD false) && !sl2)) = false) :
    ∀ n : Nat, ((reset_contact_state q)^[n + 1] c).during_current_frame = true ∧
      ((reset_contact_state q)^[n + 1] c).entity1 = c.entity1 ∧
      ((reset_contact_state q)^[n + 1] c).entity2 = c.entity2 := by
  intro n
  induction n with
  | zero =>
    rw [Function.iterate_one]
    exact ⟨(reset_inactive_step q c rb1 sl1 rb2 sl2 hq1 hq2 hact).2,
      reset_contact_state_entity1 q c, reset_contact_state_entity2 q c⟩
  | succ n ih =>
    obtain ⟨hdcf, he1, he2⟩ := ih
    rw [Function.iterate_succ_apply']
    have hq1b : q ((reset_contact_state q)^[n + 1] c).entity1 = some (rb1, sl1) := by
      rw [he1]; exact hq1
    have hq2b : q ((reset_contact_state q)^[n + 1] c).entity2 = some (rb2, sl2) := by
      rw [he2]; exact hq2
    refine ⟨(reset_inactive_step q _ rb1 sl1 rb2 sl2 hq1b hq2b hact).2, ?_, ?_⟩
    · rw [reset_contact_state_entity1, he1]
    · rw [reset_contact_state_entity2, he2]

/-- C4: the pre-pass reset zeroes both aggregate impulse totals of every stored
entry; when both entities resolve, it sets during_previous_frame = true and
during_current_frame = false if at least one referenced body is active (not
static and not sleeping), and sets both flags true if neither is active — so a
resting pair keeps during_current_frame = true on every following frame without
re-detection; when either entity cannot be resolved, during_current_frame is
set to false unconditionally. -/
theorem reset_collision_states_spec
    (q : Entity → Option (Option RigidBody × Bool)) (c : Contacts) :
    (reset_contact_state q c).total_normal_impulse = 0 ∧
    (reset_contact_state q c).total_tangent_impulse = 0 ∧
    (∀ rb1 sl1 rb2 sl2,
      q c.entity1 = some (rb1, sl1) → q c.entity2 = some (rb2, sl2) →
      (((!((rb1.map RigidBody.is_static).getD false) && !sl1)
          || (!((rb2.map RigidBody.is_static).getD false) && !sl2)) = true →
        (reset_contact_state q c).during_previous_frame = true ∧
        (reset_contact_state q c).during_current_frame = false) ∧
      (((!((rb1.map RigidBody.is_static).getD false) && !sl1)
          || (!((rb2.map RigidBody.is_static).getD false) && !sl2)) = false →
        (reset_contact_state q c).during_previous_frame = true ∧
        (reset_contact_state q c).during_current_frame = true ∧
        ∀ n : Nat, ((reset_contact_state q)^[n + 1] c).during_current_frame = true)) ∧
    ((q c.entity1 = none ∨ q c.entity2 = none) →
      (reset_contact_state q c).during_current_frame = false) := by
  have htot : (reset_contact_state q c).total_normal_impulse = 0 ∧
      (reset_contact_state q c).total_tangent_impulse = 0 := by
    unfold reset_contact_state
    split
    · split <;> exact ⟨rfl, rfl⟩
    · exact ⟨rfl, rfl⟩
  refine ⟨htot.1, htot.2, ?_, ?_⟩
  · intro rb1 sl1 rb2 sl2 hq1 hq2
    constructor
    · intro hact
      unfold reset_contact_state
      rw [hq1, hq2]
      simp [hact]
    · intro hact
      have hstep := reset_inactive_step q c rb1 sl1 rb2 sl2 hq1 hq2 hact
      exact ⟨hstep.1, hstep.2,
        fun n => (reset_inactive_persistent q c rb1 sl1 rb2 sl2 hq1 hq2 hact n).1⟩
  · intro h
    rcases h with h | h
    · unfold reset_contact_state
      rw [h]
    · unfold reset_contact_state
      rcases hq1 : q c.entity1 with _ | p1
      · rfl
      · rcases p1 with ⟨rb1, sl1⟩
        rw [h]

/-- C4 witness: the reset theorem applied to a stored pair between a dynamic
and a static body. -/
theorem reset_collision_states_spec_witness :
    q_active contacts_pair12.entity1 = some (some RigidBody.Dynamic, false) ∧
    q_active contacts_pair12.entity2 = some (some RigidBody.Static, false) ∧
    (reset_contact_state q_active contacts_pair12).total_normal_impulse = 0 ∧
    (reset_contact_state q_active contacts_pair12).during_previous_frame = true ∧
    (reset_contact_state q_active contacts_pair12).during_current_frame = false := by
  have h := reset_collision_states_spec q_active contacts_pair12
  have hmain := (h.2.2.1 (some RigidBody.Dynamic) false (some RigidBody.Static) false
    rfl rfl).1 (by decide)
  exact ⟨rfl, rfl, h.1, hmain.1, hmain.2⟩

/-- C10 counterexample: entity 1 resolves with no RigidBody component but with
a Sleeping marker; paired with a static body neither side counts as active, so
the stored pair keeps during_current_frame = true, where the claim requires
false for any pair with a resolved non-RigidBody side. -/
theorem reset_states_missing_rigid_body_counterexample :
    q_norb_sleeping contacts_pair12.entity1 = some (none, true) ∧
    (reset_contact_state q_norb_sleeping contacts_pair12).during_current_frame = true ∧
    true ≠ false :=
  ⟨rfl, by decide, by decide⟩

/-- C10 (amended): an entity that resolves with no RigidBody component is
treated as active exactly when it also carries no Sleeping marker, so a stored
pair in which either resolved entity lacks a RigidBody and is not marked
sleeping is marked during_current_frame = false, and the resting-pair
persistence applies exactly when each resolved side is a static rigid body or
carries a Sleeping marker (a Sleeping marker counts even without a RigidBody). -/
theorem reset_states_missing_rigid_body_amended
    (q : Entity → Option (Option RigidBody × Bool)) (c : Contacts)
    (rb1 : Option RigidBody) (sl1 : Bool) (rb2 : Option RigidBody) (sl2 : Bool)
    (hq1 : q c.entity1 = some (rb1, sl1)) (hq2 : q c.entity2 = some (rb2, sl2)) :
    ((rb1 = none ∧ sl1 = false) ∨ (rb2 = none ∧ sl2 = false) →
      (reset_contact_state q c).during_current_frame = false) ∧
    ((reset_contact_state q c).during_current_frame = true ↔
      ((rb1.map RigidBody.is_static).getD false || sl1) = true ∧
      ((rb2.map RigidBody.is_static).getD false || sl2) = true) := by
  have hdcf : (reset_contact_state q c).during_current_frame
      = !((!((rb1.map RigidBody.is_static).getD false) && !sl1)
          || (!((rb2.map RigidBody.is_static).getD false) && !sl2)) := by
    unfold reset_contact_state
    rw [hq1, hq2]
    by_cases hb : ((!((rb1.map RigidBody.is_static).getD false) && !sl1)
        || (!((rb2.map RigidBody.is_static).getD false) && !sl2)) = true
    · simp [hb]
    · simp only [Bool.not_eq_true] at hb
      simp [hb]
  constructor
  · rintro (⟨h1, h2⟩ | ⟨h1, h2⟩) <;> subst h1 <;> subst h2 <;> simp [hdcf]
  · rw [hdcf]
    cases h1 : (rb1.map RigidBody.is_static).getD false <;>
      cases h2 : (rb2.map RigidBody.is_static).getD false <;>
      cases sl1 <;> cases sl2 <;> simp

/-- C10 witness: the amended theorem applied to a pair whose first entity
resolves without a RigidBody and without a Sleeping marker. -/
theorem reset_states_missing_rigid_body_witness :
    q_norb_awake contacts_pair12.entity1 = some (none, false) ∧
    (reset_contact_state q_norb_awake contacts_pair12).during_current_frame = false :=
  ⟨rfl, (reset_states_missing_rigid_body_amended q_norb_awake contacts_pair12 none false
    (some RigidBody.Static) false rfl rfl).1 (Or.inl ⟨rfl, rfl⟩)⟩

/-! Claim C5: the post-pass prune. -/

/-- C5: the post-pass prune keeps exactly the stored entries whose
during_current_frame is true — so afterwards no entry has
during_current_frame = false — and it is the sole removal path among the
narrow-phase passes: the reset pass keeps the key set unchanged and insertion
never drops a key. -/
theorem remove_ended_collisions_spec (s : Collisions) :
    (∀ kv, kv ∈ remove_ended_collisions s ↔ kv ∈ s ∧ kv.2.during_current_frame = true) ∧
    (∀ q, (reset_collision_states q s).map Prod.fst = s.map Prod.fst) ∧
    (∀ c, ∀ k, k ∈ s.map Prod.fst → k ∈ (insert_collision_pair s c).map Prod.fst) := by
  refine ⟨?_, ?_, ?_⟩
  · intro kv
    simp [remove_ended_collisions, List.mem_filter]
  · intro q
    simp [reset_collision_states, List.map_map, Function.comp_def]
  · intro c k hk
    unfold insert_collision_pair
    split
    · rw [List.map_map]
      simpa [Function.comp_def, apply_ite Prod.fst, ite_self] using hk
    · rw [List.map_append]
      exact List.mem_append_left _ hk

/-- C5 witness: the prune theorem applied to a store holding one surviving and
one ended entry. -/
theorem remove_ended_collisions_witness :
    ((1, 2), contacts_current) ∈ remove_ended_collisions store_mixed ∧
    (((3, 4), contacts_ended) ∈ remove_ended_collisions store_mixed → False) := by
  have h := (remove_ended_collisions_spec store_mixed).1
  constructor
  · exact (h _).mpr ⟨List.mem_cons_self _ _, rfl⟩
  · intro hmem
    have hdc := ((h _).mp hmem).2
    exact absurd hdc (by decide)

/-! Claim C9: the wake-up side effect of generate_constraints. -/

/-- C9: whenever generate_constraints proceeds past its skip condition, a
deferred remove-Sleeping command is issued against body1 when body1 is
sleeping, against body2 when only body2 is sleeping, and against nobody when
neither sleeps; a skipped pair never issues a wake command. -/
theorem generate_constraints_wake
    (contacts : Contacts) (body1 body2 : BodyInfo) (collider1 collider2 : ColliderInfo)
    (gen : Nat → ContactManifold → ContactConstraint) :
    ((((body1.rb.is_static || body1.is_sleeping) && (body2.rb.is_static || body2.is_sleeping))
        || (collider1.is_sensor || body1.is_sensor)
        || (collider2.is_sensor || body2.is_sensor)) = true →
      (generate_constraints contacts body1 body2 collider1 collider2 gen).2 = []) ∧
    ((((body1.rb.is_static || body1.is_sleeping) && (body2.rb.is_static || body2.is_sleeping))
        || (collider1.is_sensor || body1.is_sensor)
        || (collider2.is_sensor || body2.is_sensor)) = false →
      (body1.is_sleeping = true →
        (generate_constraints contacts body1 body2 collider1 collider2 gen).2
          = [body1.entity]) ∧
      (body1.is_sleeping = false → body2.is_sleeping = true →
        (generate_constraints contacts body1 body2 collider1 collider2 gen).2
          = [body2.entity]) ∧
      (body1.is_sleeping = false → body2.is_sleeping = false →
        (generate_constraints contacts body1 body2 collider1 collider2 gen).2 = [])) := by
  constructor
  · intro h
    simp [generate_constraints, h]
  · intro h
    refine ⟨?_, ?_, ?_⟩
    · intro h1
      unfold generate_constraints
      rw [if_neg (by simp [h])]
      simp [h1]
    · intro h1 h2
      unfold generate_constraints
      rw [if_neg (by simp [h])]
      simp [h1, h2]
    · intro h1 h2
      unfold generate_constraints
      rw [if_neg (by simp [h])]
      simp [h1, h2]

/-- C9 witness: the wake theorem applied to a sleeping dynamic body touching an
active dynamic body. -/
theorem generate_constraints_wake_witness :
    (((body_sleeping.rb.is_static || body_sleeping.is_sleeping)
        && (body_dynamic2.rb.is_static || body_dynamic2.is_sleeping))
      || (collider_plain.is_sensor || body_sleeping.is_sensor)
      || (collider_plain.is_sensor || body_dynamic2.is_sensor)) = false ∧
    (generate_constraints contacts_pair12 body_sleeping body_dynamic2 collider_plain
      collider_plain gen_ex).2 = [10] := by
  refine ⟨by decide, ?_⟩
  exact ((generate_constraints_wake contacts_pair12 body_sleeping body_dynamic2 collider_plain
    collider_plain gen_ex).2 (by decide)).1 (by decide)

/-! Claim C3: constraint gating in handle_pair. -/

theorem bool_active_of_not_both_inactive {x1 y1 x2 y2 : Bool}
    (h : ((x1 || y1) && (x2 || y2)) = false) :
    ((!x1 && !y1) || (!x2 && !y2)) = true := by
  revert h
  cases x1 <;> cases y1 <;> cases x2 <;> cases y2 <;> decide

theorem bool_dynamic_of_not_both_nondynamic {x y : Bool} (h : (!x && !y) = false) :
    (x || y) = true := by
  revert h
  cases x <;> cases y <;> decide

theorem bool_skip_split {a b c : Bool} (h : (a || b || c) = false) :
    a = false ∧ b = false ∧ c = false := by
  revert h
  cases a <;> cases b <;> cases c <;> decide

theorem generate_constraints_nonempty
    {contacts : Contacts} {body1 body2 : BodyInfo} {collider1 collider2 : ColliderInfo}
    {gen : Nat → ContactManifold → ContactConstraint}
    (h : (generate_constraints contacts body1 body2 collider1 collider2 gen).1 ≠ []) :
    (((body1.rb.is_static || body1.is_sleeping) && (body2.rb.is_static || body2.is_sleeping))
        || (collider1.is_sensor || body1.is_sensor)
        || (collider2.is_sensor || body2.is_sensor)) = false := by
  by_cases hb : (((body1.rb.is_static || body1.is_sleeping)
      && (body2.rb.is_static || body2.is_sleeping))
      || (collider1.is_sensor || body1.is_sensor)
      || (collider2.is_sensor || body2.is_sensor)) = true
  · exact absurd (by simp [generate_constraints, hb]) h
  · simpa using hb

theorem handle_pair_fst (w : World) (s : Collisions) (u : ℚ) (e1 e2 : Entity)
    (mans : List ContactManifold) (ws : Bool) (gen : Nat → ContactManifold → ContactConstraint)
    (c1 c2 : ColliderInfo)
    (h1 : w.colliders e1 = some c1) (h2 : w.colliders e2 = some c2) :
    (handle_pair w s u e1 e2 mans ws gen).1 = compute_contacts s u e1 c1 e2 c2 mans ws := by
  rcases hcc : compute_contacts s u e1 c1 e2 c2 mans ws with _ | contacts
  · simp [handle_pair, h1, h2, hcc]
  · rcases hb1 : body_bundle w c1 with _ | b1
    · simp [handle_pair, h1, h2, hcc, hb1]
    · rcases hb2 : body_bundle w c2 with _ | b2
      · simp [handle_pair, h1, h2, hcc, hb1, hb2]
      · by_cases hdyn : (!b1.rb.is_dynamic && !b2.rb.is_dynamic) = true
        · simp [handle_pair, h1, h2, hcc, hb1, hb2, hdyn]
        · simp [handle_pair, h1, h2, hcc, hb1, hb2, hdyn]

/-- C3: constraints are appended for a pair only when both colliders resolve to
attached rigid bodies, at least one body is dynamic, neither side is a sensor
(collider-level or body-level) and at least one body is active (not static and
not sleeping); the Contacts value returned is the compute_contacts output
either way. -/
theorem handle_pair_constraint_gating
    (w : World) (s : Collisions) (u : ℚ) (e1 e2 : Entity) (mans : List ContactManifold)
    (ws : Bool) (gen : Nat → ContactManifold → ContactConstraint)
    (c1 c2 : ColliderInfo)
    (h1 : w.colliders e1 = some c1) (h2 : w.colliders e2 = some c2) :
    (handle_pair w s u e1 e2 mans ws gen).1 = compute_contacts s u e1 c1 e2 c2 mans ws ∧
    ((handle_pair w s u e1 e2 mans ws gen).2.1 ≠ [] →
      ∃ b1 b2, body_bundle w c1 = some b1 ∧ body_bundle w c2 = some b2 ∧
        (b1.rb.is_dynamic || b2.rb.is_dynamic) = true ∧
        (c1.is_sensor || b1.is_sensor) = false ∧
        (c2.is_sensor || b2.is_sensor) = false ∧
        ((!b1.rb.is_static && !b1.is_sleeping)
          || (!b2.rb.is_static && !b2.is_sleeping)) = true) := by
  refine ⟨handle_pair_fst w s u e1 e2 mans ws gen c1 c2 h1 h2, ?_⟩
  intro hne
  rcases hcc : compute_contacts s u e1 c1 e2 c2 mans ws with _ | contacts
  · exact absurd (by simp [handle_pair, h1, h2, hcc]) hne
  · rcases hb1 : body_bundle w c1 with _ | b1
    · exact absurd (by simp [handle_pair, h1, h2, hcc, hb1]) hne
    · rcases hb2 : body_bundle w c2 with _ | b2
      · exact absurd (by simp [handle_pair, h1, h2, hcc, hb1, hb2]) hne
      · by_cases hdyn : (!b1.rb.is_dynamic && !b2.rb.is_dynamic) = true
        · exact absurd (by simp [handle_pair, h1, h2, hcc, hb1, hb2, hdyn]) hne
        · have hgen : (handle_pair w s u e1 e2 mans ws gen).2.1
              = (generate_constraints contacts b1 b2 c1 c2 gen).1 := by
            simp [handle_pair, h1, h2, hcc, hb1, hb2, hdyn]
          rw [hgen] at hne
          have hskip := generate_constraints_nonempty hne
          have hparts := bool_skip_split hskip
          have hdyn2 : (!b1.rb.is_dynamic && !b2.rb.is_dynamic) = false := by
            simpa using hdyn
          exact ⟨b1, b2, rfl, rfl, bool_dynamic_of_not_both_nondynamic hdyn2,
            hparts.2.1, hparts.2.2, bool_active_of_not_both_inactive hparts.1⟩

/-- C3 witness: the gating theorem applied to a pair with two parented dynamic
bodies that does produce a constraint. -/
theorem handle_pair_constraint_gating_witness :
    (handle_pair world_ex [] 1 1 2 [man_zero] true gen_ex).2.1 ≠ [] ∧
    (∃ b1 b2, body_bundle world_ex collider_parented1 = some b1 ∧
      body_bundle world_ex collider_parented2 = some b2 ∧
      (b1.rb.is_dynamic || b2.rb.is_dynamic) = true ∧
      (collider_parented1.is_sensor || b1.is_sensor) = false ∧
      (collider_parented2.is_sensor || b2.is_sensor) = false ∧
      ((!b1.rb.is_static && !b1.is_sleeping)
        || (!b2.rb.is_static && !b2.is_sleeping)) = true) := by
  have hne : (handle_pair world_ex [] 1 1 2 [man_zero] true gen_ex).2.1 ≠ [] := by decide
  exact ⟨hne, (handle_pair_constraint_gating world_ex [] 1 1 2 [man_zero] true gen_ex
    collider_parented1 collider_parented2 rfl rfl).2 hne⟩

/-! Claim C7: the fields of a returned Contacts record. -/

/-- C7: every Contacts record returned by handle_pair has
during_current_frame = true, during_previous_frame copied from the prior entry
under either key ordering (else false), and is_sensor true exactly when either
collider is a sensor or either collider lacks an attached rigid body. -/
theorem handle_pair_contacts_fields
    (w : World) (s : Collisions) (u : ℚ) (e1 e2 : Entity) (mans : List ContactManifold)
    (ws : Bool) (gen : Nat → ContactManifold → ContactConstraint) (c : Contacts)
    (hres : (handle_pair w s u e1 e2 mans ws gen).1 = some c) :
    c.during_current_frame = true ∧
    c.during_previous_frame
      = (previous_pair s e1 e2).elim false Contacts.during_previous_frame ∧
    ∃ c1 c2, w.colliders e1 = some c1 ∧ w.colliders e2 = some c2 ∧
      c.is_sensor = (c1.is_sensor || c2.is_sensor || !c1.is_rb || !c2.is_rb) := by
  rcases h1 : w.colliders e1 with _ | c1
  · unfold handle_pair at hres
    rw [h1] at hres
    cases hx : w.colliders e2 <;> rw [hx] at hres <;> simp at hres
  · rcases h2 : w.colliders e2 with _ | c2
    · unfold handle_pair at hres
      rw [h1, h2] at hres
      simp at hres
    · rw [handle_pair_fst w s u e1 e2 mans ws gen c1 c2 h1 h2] at hres
      have hc := compute_contacts_some hres
      exact ⟨by rw [hc], by rw [hc], c1, c2, rfl, rfl, by rw [hc]⟩

/-- C7 witness: the fields theorem applied to a fresh pair, whose record gets
during_previous_frame = false from the empty store. -/
theorem handle_pair_contacts_fields_witness :
    (handle_pair world_ex [] 1 1 2 [man_zero] true gen_ex).1 = some contacts_c7_expected ∧
    contacts_c7_expected.during_current_frame = true ∧
    contacts_c7_expected.during_previous_frame
      = (previous_pair [] 1 2).elim false Contacts.during_previous_frame := by
  have hres : (handle_pair world_ex [] 1 1 2 [man_zero] true gen_ex).1
      = some contacts_c7_expected := by decide
  have h := handle_pair_contacts_fields world_ex [] 1 1 2 [man_zero] true gen_ex
    contacts_c7_expected hres
  exact ⟨hres, h.1, h.2.1⟩

/-! Claim C8: absence of error signalling in handle_pair. -/

/-- C8: handle_pair never signals an error — when either collider cannot be
resolved or the geometry backend returns no manifolds, it returns none with no
constraints and no wake commands, and the sequential update leaves the
Collisions store untouched for that pair. -/
theorem handle_pair_no_error
    (w : World) (s : Collisions) (u : ℚ) (e1 e2 : Entity) (mans : List ContactManifold)
    (ws : Bool) (gen : Nat → ContactManifold → ContactConstraint)
    (h : w.colliders e1 = none ∨ w.colliders e2 = none ∨ mans = []) :
    handle_pair w s u e1 e2 mans ws gen = (none, [], []) ∧
    update_step w s u e1 e2 mans ws gen = s := by
  have hmain : handle_pair w s u e1 e2 mans ws gen = (none, [], []) := by
    rcases h with h | h | h
    · rcases hy : w.colliders e2 with _ | c2 <;> simp [handle_pair, h, hy]
    · rcases hx : w.colliders e1 with _ | c1 <;> simp [handle_pair, h, hx]
    · subst h
      have hcc : ∀ cc1 cc2 : ColliderInfo, compute_contacts s u e1 cc1 e2 cc2 [] ws = none := by
        intro cc1 cc2
        simp [compute_contacts, warm_start_pass_nil]
      rcases hx : w.colliders e1 with _ | c1
      · simp [handle_pair, hx]
      · rcases hy : w.colliders e2 with _ | c2
        · simp [handle_pair, hx, hy]
        · simp [handle_pair, hx, hy, hcc]
  refine ⟨hmain, ?_⟩
  unfold update_step
  rw [hmain]

/-- C8 witness: the no-error theorem applied to a pair whose first entity has
no collider. -/
theorem handle_pair_no_error_witness :
    (world_ex.colliders 5 = none ∨ world_ex.colliders 2 = none
      ∨ ([man_zero] : List ContactManifold) = []) ∧
    handle_pair world_ex [] 1 5 2 [man_zero] true gen_ex = (none, [], []) ∧
    update_step world_ex [] 1 5 2 [man_zero] true gen_ex = [] := by
  have h : world_ex.colliders 5 = none := rfl
  exact ⟨Or.inl h, handle_pair_no_error world_ex [] 1 5 2 [man_zero] true gen_ex (Or.inl h)⟩

/-! Claims C1 and C6: the speculative-margin calculation. -/

theorem is_length_unique {v : Vec2} {a b : ℝ} (ha : IsLength v a) (hb : IsLength v b) :
    a = b := by
  obtain ⟨ha0, ha2⟩ := ha
  obtain ⟨hb0, hb2⟩ := hb
  have h2 : Real.sqrt (norm_sq v) = a := by rw [← ha2, Real.sqrt_sq ha0]
  have h3 : Real.sqrt (norm_sq v) = b := by rw [← hb2, Real.sqrt_sq hb0]
  exact h2.symm.trans h3

theorem resolve_margin_eq (s : SideData) (dflt : Margin) :
    (side_speculative_margin s).getD dflt = spec_effective_margin s dflt := by
  unfold side_speculative_margin spec_effective_margin
  cases s.collider_margin
  · cases side_body_margin s <;> rfl
  · rfl

theorem clamped_velocity_div (v : Vec2) (m : Margin) (dt : ℝ) (w : Vec2) :
    ClampedVelocity v m dt⁻¹ w ↔ SpecClampedVelocity v m dt w := by
  cases m with
  | unbounded => exact Iff.rfl
  | fin x =>
    show ClampLengthMax v (x * dt⁻¹) w ↔ ClampLengthMax v (x / dt) w
    rw [div_eq_mul_inv]

theorem clamped_resolved (s : SideData) (dflt : Margin) (dt : ℝ) (w : Vec2) :
    ClampedVelocity (side_lin_vel s) ((side_speculative_margin s).getD dflt) dt⁻¹ w ↔
      SpecClampedVelocity (side_lin_vel s) (spec_effective_margin s dflt) dt w := by
  rw [resolve_margin_eq]
  exact clamped_velocity_div _ _ _ _

/-- C1: the maximum contact distance computed by handle_pair is exactly the
spec's formula — max(dt * |clamped relative velocity|, scaled contact
tolerance), each side's margin resolved as collider override, else body
override, else the length-unit-scaled default, and each side's velocity
magnitude clamped to margin / dt exactly when that margin is bounded. -/
theorem handle_pair_max_contact_distance_spec
    (length_unit : ℝ) (config : NarrowPhaseConfig) (dt : ℝ) (s1 s2 : SideData) (d : ℝ) :
    HandlePairMaxDistance length_unit config dt s1 s2 d ↔
      SpecMaxContactDistance length_unit config dt s1 s2 d := by
  unfold HandlePairMaxDistance MaxContactDistance SpecMaxContactDistance
  apply exists_congr
  intro w1
  apply exists_congr
  intro w2
  apply exists_congr
  intro rel
  rw [clamped_resolved s1, clamped_resolved s2]

theorem mcd_unbounded_form {dm : Margin} {tol dt : ℝ} {s1 s2 : SideData} {r d : ℝ}
    (h1 : (side_speculative_margin s1).getD dm = Margin.unbounded)
    (h2 : (side_speculative_margin s2).getD dm = Margin.unbounded)
    (hr : IsLength (vsub (side_lin_vel s1) (side_lin_vel s2)) r)
    (hd : MaxContactDistance dm tol dt s1 s2 d) :
    d = max (dt * r) tol := by
  obtain ⟨w1, w2, rel, hc1, hc2, hlen, heq⟩ := hd
  rw [h1] at hc1
  rw [h2] at hc2
  have e1 : w1 = side_lin_vel s1 := hc1
  have e2 : w2 = side_lin_vel s2 := hc2
  subst e1
  subst e2
  rw [heq, is_length_unique hlen hr]

/-- C6 (amended): the computed maximum contact distance never falls below the
length-unit-scaled contact tolerance, an unbounded margin leaves the velocity
unclamped, and — when every resolved margin is unbounded, so that no clamping
takes place — the distance is monotonically non-decreasing in the relative
speed of the two bodies. -/
theorem max_contact_distance_monotone_amended :
    (∀ (u : ℝ) (cfg : NarrowPhaseConfig) (dt : ℝ) (s1 s2 : SideData) (d : ℝ),
      HandlePairMaxDistance u cfg dt s1 s2 d → u * cfg.contact_tolerance ≤ d) ∧
    (∀ (v w : Vec2) (i : ℝ), ClampedVelocity v Margin.unbounded i w ↔ w = v) ∧
    (∀ (u : ℝ) (cfg : NarrowPhaseConfig) (dt : ℝ) (s1 s2 t1 t2 : SideData) (r1 r2 d1 d2 : ℝ),
      0 ≤ dt →
      (side_speculative_margin s1).getD (scaled_margin u cfg.default_speculative_margin)
        = Margin.unbounded →
      (side_speculative_margin s2).getD (scaled_margin u cfg.default_speculative_margin)
        = Margin.unbounded →
      (side_speculative_margin t1).getD (scaled_margin u cfg.default_speculative_margin)
        = Margin.unbounded →
      (side_speculative_margin t2).getD (scaled_margin u cfg.default_speculative_margin)
        = Margin.unbounded →
      IsLength (vsub (side_lin_vel s1) (side_lin_vel s2)) r1 →
      IsLength (vsub (side_lin_vel t1) (side_lin_vel t2)) r2 →
      r1 ≤ r2 →
      HandlePairMaxDistance u cfg dt s1 s2 d1 →
      HandlePairMaxDistance u cfg dt t1 t2 d2 →
      d1 ≤ d2) := by
  refine ⟨?_, ?_, ?_⟩
  · intro u cfg dt s1 s2 d hd
    obtain ⟨w1, w2, rel, hc1, hc2, hlen, heq⟩ := hd
    rw [heq]
    exact le_max_right _ _
  · intro v w i
    exact Iff.rfl
  · intro u cfg dt s1 s2 t1 t2 r1 r2 d1 d2 hdt hm1 hm2 hm3 hm4 hr1 hr2 hr hd1 hd2
    have he1 := mcd_unbounded_form hm1 hm2 hr1 hd1
    have he2 := mcd_unbounded_form hm3 hm4 hr2 hd2
    rw [he1, he2]
    exact max_le_max (mul_le_mul_of_nonneg_left hr hdt) le_rfl

/-- C6 counterexample: with both collider margins fixed at 5, dt = 1 and zero
tolerance, the stationary-frame pair with relative speed 10 gets maximum
contact distance 10, while a pair with larger relative speed √200 has both
velocities clamped to magnitude 5 and gets maximum contact distance √2 < 10 —
the distance is not monotone in relative speed. -/
theorem max_contact_distance_not_monotone_counterexample :
    IsLength (vsub (side_lin_vel ⟨some (((5 : ℝ), 0), none), some (.fin 5)⟩)
      (side_lin_vel ⟨some (((-5 : ℝ), 0), none), some (.fin 5)⟩)) 10 ∧
    IsLength (vsub (side_lin_vel ⟨some (((30 : ℝ), 40), none), some (.fin 5)⟩)
      (side_lin_vel ⟨some (((40 : ℝ), 30), none), some (.fin 5)⟩)) (Real.sqrt 200) ∧
    (10 : ℝ) ≤ Real.sqrt 200 ∧
    HandlePairMaxDistance 1 ⟨Margin.unbounded, 0⟩ 1
      ⟨some (((5 : ℝ), 0), none), some (.fin 5)⟩
      ⟨some (((-5 : ℝ), 0), none), some (.fin 5)⟩ 10 ∧
    HandlePairMaxDistance 1 ⟨Margin.unbounded, 0⟩ 1
      ⟨some (((30 : ℝ), 40), none), some (.fin 5)⟩
      ⟨some (((40 : ℝ), 30), none), some (.fin 5)⟩ (Real.sqrt 2) ∧
    Real.sqrt 2 < 10 := by
  have h100 : Real.sqrt 100 = 10 := by
    rw [show (100 : ℝ) = 10 ^ 2 by norm_num, Real.sqrt_sq (by norm_num : (0 : ℝ) ≤ 10)]
  refine ⟨?_, ?_, ?_, ?_, ?_, ?_⟩
  · exact ⟨by norm_num, by norm_num [vsub, norm_sq, side_lin_vel]⟩
  · refine ⟨Real.sqrt_nonneg 200, ?_⟩
    rw [Real.sq_sqrt (by norm_num : (0 : ℝ) ≤ 200)]
    norm_num [vsub, norm_sq, side_lin_vel]
  · rw [← h100]
    exact Real.sqrt_le_sqrt (by norm_num)
  · refine ⟨(5, 0), (-5, 0), 10, ?_, ?_, ?_, ?_⟩
    · show ClampLengthMax _ (5 * (1 : ℝ)⁻¹) _
      exact ⟨5, ⟨by norm_num, by norm_num [norm_sq, side_lin_vel]⟩,
        Or.inl ⟨by norm_num, rfl⟩⟩
    · show ClampLengthMax _ (5 * (1 : ℝ)⁻¹) _
      exact ⟨5, ⟨by norm_num, by norm_num [norm_sq, side_lin_vel]⟩,
        Or.inl ⟨by norm_num, rfl⟩⟩
    · exact ⟨by norm_num, by norm_num [vsub, norm_sq]⟩
    · norm_num
  · refine ⟨(3, 4), (4, 3), Real.sqrt 2, ?_, ?_, ?_, ?_⟩
    · show ClampLengthMax _ (5 * (1 : ℝ)⁻¹) _
      refine ⟨50, ⟨by norm_num, by norm_num [norm_sq, side_lin_vel]⟩,
        Or.inr ⟨by norm_num, ?_⟩⟩
      show ((3 : ℝ), (4 : ℝ)) = _
      norm_num [side_lin_vel, Prod.ext_iff]
    · show ClampLengthMax _ (5 * (1 : ℝ)⁻¹) _
      refine ⟨50, ⟨by norm_num, by norm_num [norm_sq, side_lin_vel]⟩,
        Or.inr ⟨by norm_num, ?_⟩⟩
      show ((4 : ℝ), (3 : ℝ)) = _
      norm_num [side_lin_vel, Prod.ext_iff]
    · refine ⟨Real.sqrt_nonneg 2, ?_⟩
      rw [Real.sq_sqrt (by norm_num : (0 : ℝ) ≤ 2)]
      norm_num [vsub, norm_sq]
    · rw [one_mul, mul_zero]
      exact (max_eq_left (Real.sqrt_nonneg 2)).symm
  · calc Real.sqrt 2 < Real.sqrt 100 := Real.sqrt_lt_sqrt (by norm_num) (by norm_num)
    _ = 10 := h100

/-- C6 witness: the amended monotonicity theorem applied to two unclamped pairs
with relative speeds 5 and 10. -/
theorem max_contact_distance_monotone_witness :
    (0 : ℝ) ≤ 1 ∧
    HandlePairMaxDistance 1 ⟨Margin.unbounded, 0⟩ 1 ⟨some (((3 : ℝ), 4), none), none⟩
      ⟨none, none⟩ 5 ∧
    HandlePairMaxDistance 1 ⟨Margin.unbounded, 0⟩ 1 ⟨some (((6 : ℝ), 8), none), none⟩
      ⟨none, none⟩ 10 ∧
    (5 : ℝ) ≤ 10 := by
  have hm1 : HandlePairMaxDistance 1 ⟨Margin.unbounded, 0⟩ 1
      ⟨some (((3 : ℝ), 4), none), none⟩ ⟨none, none⟩ 5 := by
    refine ⟨(3, 4), (0, 0), 5, rfl, rfl,
      ⟨by norm_num, by norm_num [vsub, norm_sq, side_lin_vel]⟩, ?_⟩
    rw [one_mul, mul_zero]
    exact (max_eq_left (by norm_num)).symm
  have hm2 : HandlePairMaxDistance 1 ⟨Margin.unbounded, 0⟩ 1
      ⟨some (((6 : ℝ), 8), none), none⟩ ⟨none, none⟩ 10 := by
    refine ⟨(6, 8), (0, 0), 10, rfl, rfl,
      ⟨by norm_num, by norm_num [vsub, norm_sq, side_lin_vel]⟩, ?_⟩
    rw [one_mul, mul_zero]
    exact (max_eq_left (by norm_num)).symm
  refine ⟨by norm_num, hm1, hm2, ?_⟩
  exact max_contact_distance_monotone_amended.2.2 1 ⟨Margin.unbounded, 0⟩ 1
    ⟨some (((3 : ℝ), 4), none), none⟩ ⟨none, none⟩
    ⟨some (((6 : ℝ), 8), none), none⟩ ⟨none, none⟩ 5 10 5 10
    (by norm_num) rfl rfl rfl rfl
    ⟨by norm_num, by norm_num [vsub, norm_sq, side_lin_vel]⟩
    ⟨by norm_num, by norm_num [vsub, norm_sq, side_lin_vel]⟩
    (by norm_num) hm1 hm2

end NarrowPhase
